import Mathlib

set_option maxHeartbeats 1000000

/- Shallow embedding of the coordination core of the browser-use web
backend: the ConnectionManager (registry, broadcast, agent gate), the
websocket chat router, and the task execution handlers, translated from
src/web-version/backend/main.py, main_no_dotenv.py and main_real.py. -/

namespace Backend

/-- Outbound chat event, mirroring the Pydantic ChatMessage model:
type in {"user", "agent", "system", "error"}, content, timestamp, sender. -/
structure ChatMessage where
  type : String
  content : String
  timestamp : String
  sender : String
deriving DecidableEq, Repr

/-- Response of GET /api/status (uptime is the formatted current time). -/
structure AgentStatus where
  status : String
  current_task : Option String
  uptime : String
deriving DecidableEq, Repr

/-- One per-step outcome inside the agent result (browser_use
ActionResult); the backend only reads its error attribute. -/
structure ActionResult where
  error : Option String
deriving DecidableEq, Repr

/-- The agent run result (AgentHistoryList): its per-step results
(result.all_results) and its textual form str(result). -/
structure AgentHistory where
  all_results : List ActionResult
  text : String
deriving DecidableEq, Repr

/-- Python slice s[:n]: the first n characters of s. -/
def strSlice (s : String) (n : Nat) : String :=
  String.mk (s.data.take n)

/-- Python str.strip() with no argument: remove leading and trailing
whitespace characters. -/
def pyStrip (s : String) : String :=
  String.mk
    (((s.data.dropWhile Char.isWhitespace).reverse.dropWhile
        Char.isWhitespace).reverse)

/-- Contiguous-substring test on character lists. -/
def listContainsSub (pat : List Char) : List Char → Bool
  | [] => pat.isEmpty
  | c :: t => pat.isPrefixOf (c :: t) || listContainsSub pat t

/-- Python substring membership: pat in s. -/
def strContains (s pat : String) : Bool :=
  listContainsSub pat.data s.data

/-- The externally visible actions a handler performs, in program order:
broadcast an event to all connections, send a personal event to the
submitting websocket only, send the raw pong reply, run the agent engine
(agent.run()), call release_agent_lock. -/
inductive Action where
  | broadcastMsg (m : ChatMessage)
  | personalMsg (m : ChatMessage)
  | pongReply (timestamp : String)
  | engineRun
  | releaseLock
deriving DecidableEq, Repr

/-- How the awaited agent.run() call ends: a normal return carrying the
result, or an exception whose str() is e. -/
inductive EngineOutcome where
  | ok (r : AgentHistory)
  | raised (e : String)
deriving DecidableEq, Repr

/-- Inbound websocket messages dispatched by websocket_chat, keyed on the
"type" field of the received JSON. -/
inductive Inbound where
  | user_message (content : String)
  | voice_input (content : String)
  | ping
  | unknown (t : String)
deriving DecidableEq, Repr

/-- Outcome of handling one inbound message or task: either the coroutine
is parked forever on the manager lock after having emitted acts (blocked),
or it finished, having emitted acts, with a final manager state. -/
inductive RouterOut (σ : Type) where
  | blocked (acts : List Action)
  | done (acts : List Action) (s : σ)
deriving DecidableEq

/-- Prefix one already-emitted action onto a handler outcome. -/
def RouterOut.consAct {σ : Type} (a : Action) : RouterOut σ → RouterOut σ
  | .blocked acts => .blocked (a :: acts)
  | .done acts s => .done (a :: acts) s

/-- ConnectionManager.disconnect (identical in main.py and
main_no_dotenv.py): remove the websocket from active_connections if
present, otherwise do nothing. -/
def disconnect {α : Type} [DecidableEq α] (w : α) (l : List α) : List α :=
  if w ∈ l then l.erase w else l

/-- ConnectionManager.send_personal_message: try websocket.send_json; on
any exception, swallow it and disconnect that websocket. The parameter ok
says whether the send to a given websocket succeeds. Returns whether the
event was delivered, and the updated registry. -/
def send_personal_message {α : Type} [DecidableEq α] (ok : α → Bool) (w : α)
    (l : List α) : Bool × List α :=
  if ok w then (true, l) else (false, disconnect w l)

/-- The loop of ConnectionManager.broadcast: iterate the snapshot
active_connections.copy(), delivering to each websocket with
send_personal_message, which mutates the live registry on failure.
Returns the websockets that received the event and the final registry. -/
def broadcastLoop {α : Type} [DecidableEq α] (ok : α → Bool) :
    List α → List α → List α × List α
  | [], live => ([], live)
  | w :: rest, live =>
    let r := send_personal_message ok w live
    let res := broadcastLoop ok rest r.2
    (if r.1 then w :: res.1 else res.1, res.2)

/-- ConnectionManager.broadcast: send the event to every member of a
snapshot of the registry. -/
def broadcast {α : Type} [DecidableEq α] (ok : α → Bool) (l : List α) :
    List α × List α :=
  broadcastLoop ok l l

/-- The user echo broadcast for a "user_message" (content is the trimmed
task text, sender "Vous"); identical in main.py and main_no_dotenv.py. -/
def userEchoMsg (now task : String) : ChatMessage :=
  ⟨"user", task, now, "Vous"⟩

/-- The user echo broadcast for a "voice_input" (framing the raw
voice-sourced text, sender "Vocal"); identical in both files. -/
def voiceEchoMsg (now content : String) : ChatMessage :=
  ⟨"user", "🎤 Vocal: « " ++ content ++ " »", now, "Vocal"⟩

/-- One turn of the websocket_chat receive loop (identical in main.py and
main_no_dotenv.py up to which task handler is called): user_message is
trimmed and dropped when empty, otherwise echoed then handed to the task
handler; voice_input is always echoed and handed over only when its trim
is nonempty (the handler gets the untrimmed text); ping gets a direct
pong reply; any other type is ignored. -/
def websocket_chat_step {σ : Type} (handler : String → σ → RouterOut σ)
    (now : String) (msg : Inbound) (s : σ) : RouterOut σ :=
  match msg with
  | .user_message content =>
    let task := pyStrip content
    if task = "" then .done [] s
    else (handler task s).consAct (.broadcastMsg (userEchoMsg now task))
  | .voice_input content =>
    if pyStrip content = "" then
      .done [.broadcastMsg (voiceEchoMsg now content)] s
    else (handler content s).consAct (.broadcastMsg (voiceEchoMsg now content))
  | .ping => .done [.pongReply now] s
  | .unknown _ => .done [] s

/-- GET /api/status: "busy" or "idle" from agent_busy, with the recorded
current task (identical in all backend variants). -/
def get_status (now : String) (agent_busy : Bool)
    (current_task : Option String) : AgentStatus :=
  ⟨if agent_busy then "busy" else "idle", current_task, now⟩

/-- True for the task-terminal event kinds ("agent" success or "error"),
false for advisory "system" and echo "user" events. -/
def isTerminal (m : ChatMessage) : Bool :=
  m.type == "agent" || m.type == "error"

/-- Recognizes the release_agent_lock action in a trace. -/
def isRelease : Action → Bool
  | .releaseLock => true
  | _ => false

/-- The events every connected observer receives from a trace: exactly its
broadcast actions, in order. -/
def broadcastsOf (acts : List Action) : List ChatMessage :=
  acts.filterMap fun a =>
    match a with
    | .broadcastMsg m => some m
    | _ => none

namespace NoDotenv

/-- Gate-relevant state of the ConnectionManager of main_no_dotenv.py: whether
self._lock is currently held, agent_busy, current_task, and whether
current_agent is set. -/
structure ManagerState where
  lockHeld : Bool
  agent_busy : Bool
  current_task : Option String
  current_agent : Bool
deriving DecidableEq, Repr

/-- ConnectionManager.acquire_agent_lock: await self._lock.acquire()
suspends the caller (none) while the lock is held by someone else; once
the lock is obtained, if agent_busy the lock is released and False is
returned (no other state change), else agent_busy is set and True is
returned with the lock still held (it stays held until
release_agent_lock). -/
def acquire_agent_lock (s : ManagerState) : Option (Bool × ManagerState) :=
  if s.lockHeld then none
  else if s.agent_busy then some (false, s)
  else some (true, { s with lockHeld := true, agent_busy := true })

/-- ConnectionManager.release_agent_lock: clear agent_busy, current_task
and current_agent, and release self._lock. -/
def release_agent_lock (_s : ManagerState) : ManagerState :=
  { lockHeld := false, agent_busy := false, current_task := none,
    current_agent := false }

/-- The personal "busy" rejection sent when acquire_agent_lock returns
False in execute_browser_use_task. -/
def busyMsg (now : String) : ChatMessage :=
  ⟨"system", "⏳ Browser-Use occupé, veuillez patienter...", now, "Système"⟩

/-- The error broadcast when BROWSER_USE_AVAILABLE is false. -/
def unavailMsg (now : String) : ChatMessage :=
  ⟨"error", "❌ Browser-Use non disponible. Vérifiez l\x27installation.", now,
   "Système"⟩

/-- First advisory broadcast of execute_browser_use_task. -/
def startMsg (now : String) : ChatMessage :=
  ⟨"system", "🚀 Démarrage Browser-Use...", now, "Browser-Use"⟩

/-- Second advisory broadcast (before the Agent is constructed). -/
def initMsg (now : String) : ChatMessage :=
  ⟨"system", "🧠 Initialisation de l\x27agent Browser-Use...", now,
   "Browser-Use"⟩

/-- Third advisory broadcast (just before agent.run()). -/
def launchMsg (now : String) : ChatMessage :=
  ⟨"system", "🌐 Lancement du navigateur et analyse de la tâche...", now,
   "Browser-Use"⟩

/-- The fixed ordered advisory sequence broadcast before the engine call. -/
def advisoryMsgs (now : String) : List ChatMessage :=
  [startMsg now, initMsg now, launchMsg now]

/-- The specialized credential error event broadcast when the joined error
summary contains "Incorrect API key". -/
def credErrorMsg (now : String) : ChatMessage :=
  ⟨"error",
   "🔑 **ERREUR CLEF API OPENAI**\n\n❌ Votre clé API OpenAI n\x27est pas " ++
     "valide ou a expiré.\n\n🔧 **Solutions:**\n1. Vérifiez votre clé sur " ++
     "https://platform.openai.com/account/api-keys\n2. Générez une " ++
     "nouvelle clé si nécessaire\n3. Vérifiez que vous avez du crédit sur " ++
     "votre compte\n4. Mettez à jour la clé dans config.env",
   now, "Système"⟩

/-- The error-collection loop over result.all_results: an action error
counts when the attribute is present and truthy, i.e. a nonempty string;
collected in order. -/
def collectErrors (rs : List ActionResult) : List String :=
  rs.filterMap fun a =>
    match a.error with
    | some e => if e = "" then none else some e
    | none => none

/-- error_summary: the first three collected error strings joined by
newlines. -/
def error_summary (errs : List String) : String :=
  String.intercalate "\n" (errs.take 3)

/-- The terminal event broadcast after agent.run() returns normally: if
any embedded per-step errors were collected, classify (the specialized
credential event when the joined three-error summary contains
"Incorrect API key", else the generic event built from the summary
truncated to 500 characters); otherwise the success event containing the
textual result. -/
def terminalEvent (now : String) (r : AgentHistory) : ChatMessage :=
  let error_messages := collectErrors r.all_results
  if error_messages = [] then
    ⟨"agent",
     "🎉 Tâche terminée avec succès !\n\n📋 **Résultat:**\n" ++ r.text ++
       "\n\n🤖 Exécuté par Browser-Use", now, "Browser-Use"⟩
  else
    let s := error_summary error_messages
    if strContains s "Incorrect API key" then credErrorMsg now
    else
      ⟨"error", "💥 **ERREUR BROWSER-USE**\n\n" ++ strSlice s 500 ++ "...",
       now, "Browser-Use"⟩

/-- The error event broadcast when the try block raises (the except
branch): str(e) truncated to 300 characters. -/
def hardErrorMsg (now e : String) : ChatMessage :=
  ⟨"error",
   "💥 Erreur lors de l\x27exécution Browser-Use:\n" ++ strSlice e 300 ++
     "...", now, "Système"⟩

/-- execute_browser_use_task from main_no_dotenv.py: try to acquire the
gate (possibly parking forever on the lock), on failure send the personal
busy rejection, otherwise: if Browser-Use is unavailable broadcast the
error and release; else record the task, broadcast the three advisory
events, run the engine, broadcast the classified terminal event (or the
hard error event if the engine raised), and release in the finally
block. -/
def execute_browser_use_task (avail : Bool) (now task : String)
    (outcome : EngineOutcome) (s : ManagerState) : RouterOut ManagerState :=
  match acquire_agent_lock s with
  | none => .blocked []
  | some (false, s1) => .done [.personalMsg (busyMsg now)] s1
  | some (true, s1) =>
    if avail then
      let s2 := { s1 with current_task := some task }
      match outcome with
      | .ok r =>
        .done
          [.broadcastMsg (startMsg now), .broadcastMsg (initMsg now),
           .broadcastMsg (launchMsg now), .engineRun,
           .broadcastMsg (terminalEvent now r), .releaseLock]
          (release_agent_lock { s2 with current_agent := true })
      | .raised e =>
        .done
          [.broadcastMsg (startMsg now), .broadcastMsg (initMsg now),
           .broadcastMsg (launchMsg now), .engineRun,
           .broadcastMsg (hardErrorMsg now e), .releaseLock]
          (release_agent_lock { s2 with current_agent := true })
    else
      .done [.broadcastMsg (unavailMsg now), .releaseLock]
        (release_agent_lock s1)

end NoDotenv

namespace MainPy

/-- Gate-relevant state of the ConnectionManager of main.py as used by
process_task_websocket (which never touches self._lock). -/
structure MainState where
  agent_busy : Bool
  current_task : Option String
deriving DecidableEq, Repr

/-- The personal "busy" rejection of process_task_websocket. -/
def busyMsg (now : String) : ChatMessage :=
  ⟨"system", "⏳ Agent occupé, veuillez patienter...", now, "Système"⟩

/-- First broadcast of the task processing. -/
def startMsg (now : String) : ChatMessage :=
  ⟨"system", "🔄 Traitement en cours...", now, "Agent"⟩

/-- The four fixed progress broadcasts (progress_messages, in order). -/
def progress1 (now : String) : ChatMessage :=
  ⟨"system", "🧠 Analyse de la demande...", now, "Agent"⟩

/-- Second entry of progress_messages. -/
def progress2 (now : String) : ChatMessage :=
  ⟨"system", "🎯 Planification des actions...", now, "Agent"⟩

/-- Third entry of progress_messages. -/
def progress3 (now : String) : ChatMessage :=
  ⟨"system", "⚡ Exécution en cours...", now, "Agent"⟩

/-- Fourth entry of progress_messages. -/
def progress4 (now : String) : ChatMessage :=
  ⟨"system", "✨ Finalisation...", now, "Agent"⟩

/-- The fixed ordered advisory sequence broadcast before the engine call. -/
def advisoryMsgs (now : String) : List ChatMessage :=
  [startMsg now, progress1 now, progress2 now, progress3 now, progress4 now]

/-- The fixed success broadcast (the result is not inspected). -/
def successMsg (now : String) : ChatMessage :=
  ⟨"agent",
   "🎉 Tâche accomplie avec succès ! L\x27agent a terminé toutes les " ++
     "actions requises.", now, "Agent"⟩

/-- The error broadcast of the except branch: str(e)[:80]. -/
def hardErrorMsg (now e : String) : ChatMessage :=
  ⟨"error", "💥 Erreur lors de l\x27exécution: " ++ strSlice e 80 ++ "...",
   now, "Système"⟩

/-- process_task_websocket from main.py: if agent_busy, send the personal
busy rejection and return; otherwise set the gate fields, broadcast the
start and four progress events, run the engine, broadcast the fixed
success event (or the error event if the engine raised), and clear
agent_busy and current_task in the finally block. It never blocks. -/
def process_task_websocket (now task : String) (outcome : EngineOutcome)
    (s : MainState) : RouterOut MainState :=
  if s.agent_busy then .done [.personalMsg (busyMsg now)] s
  else
    match outcome with
    | .ok _ =>
      .done
        [.broadcastMsg (startMsg now), .broadcastMsg (progress1 now),
         .broadcastMsg (progress2 now), .broadcastMsg (progress3 now),
         .broadcastMsg (progress4 now), .engineRun,
         .broadcastMsg (successMsg now)]
        ⟨false, none⟩
    | .raised e =>
      .done
        [.broadcastMsg (startMsg now), .broadcastMsg (progress1 now),
         .broadcastMsg (progress2 now), .broadcastMsg (progress3 now),
         .broadcastMsg (progress4 now), .engineRun,
         .broadcastMsg (hardErrorMsg now e)]
        ⟨false, none⟩

end MainPy

namespace MainReal

/-- The post-run broadcast of execute_browser_use_task in main_real.py:
the success event containing the textual result is emitted for every
normally returned result; embedded per-step errors are not inspected. -/
def terminalEvent (now : String) (r : AgentHistory) : ChatMessage :=
  ⟨"agent",
   "🎉 Tâche terminée avec succès !\n\n📋 **Résultat:**\n" ++ r.text ++
     "\n\n🤖 Exécuté par Browser-Use", now, "Browser-Use"⟩

end MainReal

/-- A degenerate task handler (emits nothing, keeps the state), used to
exercise the router in isolation. -/
def trivialHandler : String → Nat → RouterOut Nat :=
  fun _ s => .done [] s

/-- disconnect is extensionally erase: erasing an absent element is
already a no-op. -/
theorem disconnect_eq_erase {α : Type} [DecidableEq α] (w : α)
    (l : List α) : disconnect w l = l.erase w := by
  unfold disconnect
  by_cases h : w ∈ l
  · simp [h]
  · simp [h, List.erase_of_not_mem h]

/-- The observers delivered to by a broadcast pass are exactly the members
of the snapshot whose send succeeds, whatever the live registry is. -/
theorem broadcastLoop_fst {α : Type} [DecidableEq α] (ok : α → Bool) :
    ∀ (s live : List α), (broadcastLoop ok s live).1 = s.filter ok := by
  intro s
  induction s with
  | nil => intro live; rfl
  | cons w rest ih =>
    intro live
    by_cases h : ok w = true
    · simp [broadcastLoop, send_personal_message, h, ih, List.filter_cons]
    · simp only [Bool.not_eq_true] at h
      simp [broadcastLoop, send_personal_message, h, ih, List.filter_cons]

/-- Registry evolution during a broadcast pass over a duplicate-free live
list: the observers before the unprocessed snapshot tail are kept, and
each failing member of the tail is erased as it is reached. -/
theorem broadcastLoop_snd {α : Type} [DecidableEq α] (ok : α → Bool) :
    ∀ (s pre : List α), (pre ++ s).Nodup →
      (broadcastLoop ok s (pre ++ s)).2 = pre ++ s.filter ok := by
  intro s
  induction s with
  | nil => intro pre _; simp [broadcastLoop]
  | cons w rest ih =>
    intro pre hnd
    by_cases h : ok w = true
    · have h2 := ih (pre ++ [w])
        (by simpa [List.append_assoc] using hnd)
      simp only [List.append_assoc, List.singleton_append] at h2
      simp [broadcastLoop, send_personal_message, h, h2, List.filter_cons]
    · simp only [Bool.not_eq_true] at h
      have hw : w ∉ pre := by
        have hd := List.disjoint_of_nodup_append hnd
        intro hmem
        exact hd hmem (List.mem_cons_self w rest)
      have hsub : List.Sublist (pre ++ rest) (pre ++ w :: rest) :=
        (List.sublist_cons_self w rest).append_left pre
      have h2 := ih pre (hnd.sublist hsub)
      simp [broadcastLoop, send_personal_message, h, disconnect_eq_erase,
        List.erase_append_right _ hw, h2, List.filter_cons]

/-- C6: over a duplicate-free registry, a broadcast is a total function
(the per-send exception is swallowed inside send_personal_message): every
observer of the snapshot whose send succeeds receives the event, the final
registry keeps exactly the observers whose send succeeded, and a failed
send removes exactly the failed observer (disconnect = erase). -/
theorem broadcast_isolates_failures {α : Type} [DecidableEq α]
    (ok : α → Bool) (l : List α) (hnd : l.Nodup) :
    broadcast ok l = (l.filter ok, l.filter ok) ∧
    (∀ w ∈ l, ok w = true → w ∈ (broadcast ok l).1) ∧
    (∀ w, ok w = false → send_personal_message ok w l = (false, l.erase w)) := by
  have hfst : (broadcast ok l).1 = l.filter ok := broadcastLoop_fst ok l l
  have hsnd : (broadcast ok l).2 = l.filter ok := by
    have := broadcastLoop_snd ok l [] (by simpa using hnd)
    simpa [broadcast] using this
  refine ⟨?_, ?_, ?_⟩
  · exact Prod.ext hfst hsnd
  · intro w hw hok
    rw [hfst]
    exact List.mem_filter.2 ⟨hw, hok⟩
  · intro w hok
    simp [send_personal_message, hok, disconnect_eq_erase]

/-- C6 witness: a three-observer registry where the send to observer 1
fails: observers 0 and 2 receive the event and the registry afterwards is
exactly [0, 2]. -/
theorem broadcast_isolates_failures_witness :
    ([0, 1, 2] : List Nat).Nodup ∧
    (broadcast (fun w => w != 1) ([0, 1, 2] : List Nat) = ([0, 2], [0, 2]) ∧
     (∀ w ∈ ([0, 1, 2] : List Nat), (w != 1) = true →
        w ∈ (broadcast (fun w => w != 1) ([0, 1, 2] : List Nat)).1) ∧
     (∀ w : Nat, (w != 1) = false →
        send_personal_message (fun w => w != 1) w ([0, 1, 2] : List Nat) =
          (false, ([0, 1, 2] : List Nat).erase w))) :=
  ⟨by decide, broadcast_isolates_failures (fun w => w != 1) [0, 1, 2]
    (by decide)⟩

/-- C9 counterexample: disconnect is not idempotent on every registry
state: on the registry [0, 0] a first disconnect removes one occurrence
and a second removes the other, so calling it twice differs from calling
it once. -/
theorem disconnect_twice_counterexample :
    disconnect 0 (disconnect 0 ([0, 0] : List Nat)) ≠
      disconnect 0 ([0, 0] : List Nat) := by
  decide

/-- C9 (amended): on a duplicate-free registry (the states connect
produces, registering each connection object once), disconnect is
idempotent, and disconnecting an observer that is not in the registry
leaves it unchanged (and never raises: it is a total function). -/
theorem disconnect_idempotent_of_nodup {α : Type} [DecidableEq α] (w : α)
    (l : List α) (hnd : l.Nodup) :
    disconnect w (disconnect w l) = disconnect w l ∧
    (w ∉ l → disconnect w l = l) := by
  constructor
  · by_cases h : w ∈ l
    · have h1 : disconnect w l = l.erase w := disconnect_eq_erase w l
      have h2 : w ∉ l.erase w := by
        intro hm
        exact absurd ((List.Nodup.mem_erase_iff hnd).1 hm).1 (by simp)
      rw [h1]
      simp [disconnect, h2]
    · simp [disconnect, h]
  · intro h
    simp [disconnect, h]

/-- C9 witness: on the registry [1, 2], disconnecting observer 0 twice
equals disconnecting it once, and since 0 is absent the registry is
unchanged. -/
theorem disconnect_idempotent_of_nodup_witness :
    ([1, 2] : List Nat).Nodup ∧
    (disconnect 0 (disconnect 0 ([1, 2] : List Nat)) =
        disconnect 0 ([1, 2] : List Nat) ∧
      ((0 : Nat) ∉ ([1, 2] : List Nat) →
        disconnect 0 ([1, 2] : List Nat) = [1, 2])) :=
  ⟨by decide, disconnect_idempotent_of_nodup 0 [1, 2] (by decide)⟩

/-- C1: evaluating acquire_agent_lock around a running task. From a free
gate a first call succeeds and leaves the internal lock held; a second
call during the task is parked on the lock (it does not receive false, it
is queued); and as soon as release_agent_lock runs, the queued caller
acquires the gate and proceeds to run its task instead of having been
rejected. -/
theorem acquire_lock_second_caller_blocks :
    NoDotenv.acquire_agent_lock ⟨false, false, none, false⟩ =
      some (true, ⟨true, true, none, false⟩) ∧
    NoDotenv.acquire_agent_lock ⟨true, true, none, false⟩ = none ∧
    NoDotenv.acquire_agent_lock
        (NoDotenv.release_agent_lock ⟨true, true, some "task", true⟩) =
      some (true, ⟨true, true, none, false⟩) := by
  decide

/-- C2 counterexample: main_real.py broadcasts the "agent" success event
for a result whose embedded errors contain "Incorrect API key", and
main_no_dotenv.py classifies a result whose fourth embedded error contains
"Incorrect API key" (but whose first three do not) with the generic
message, not the specialized credential one. -/
theorem classification_counterexample :
    (MainReal.terminalEvent "12:00:00"
        ⟨[⟨some "Incorrect API key"⟩], "res"⟩).type = "agent" ∧
    NoDotenv.collectErrors [(⟨some "Incorrect API key"⟩ : ActionResult)] ≠
      [] ∧
    NoDotenv.terminalEvent "12:00:00"
        ⟨[⟨some "a"⟩, ⟨some "b"⟩, ⟨some "c"⟩,
          ⟨some "Incorrect API key"⟩], "res"⟩ ≠
      NoDotenv.credErrorMsg "12:00:00" ∧
    (NoDotenv.terminalEvent "12:00:00"
        ⟨[⟨some "a"⟩, ⟨some "b"⟩, ⟨some "c"⟩,
          ⟨some "Incorrect API key"⟩], "res"⟩).content =
      "💥 **ERREUR BROWSER-USE**\n\na\nb\nc..." := by
  decide

/-- C2 (amended, for main_no_dotenv.py): when the collected embedded
errors are nonempty and the joined summary of the first three contains
"Incorrect API key", the terminal event is the specialized credential
error; when they are nonempty and the summary does not contain it, the
terminal event is the generic truncated message; when no error is
collected the terminal event is the success message containing the textual
result; and a result with collected errors always yields an "error" event,
never an "agent" success event. main_real.py lacks this classification
(see the counterexample). -/
theorem classification_amended (now : String) (r₁ r₂ r₃ : AgentHistory)
    (h₁ : NoDotenv.collectErrors r₁.all_results ≠ [])
    (h₁k : strContains
        (NoDotenv.error_summary (NoDotenv.collectErrors r₁.all_results))
        "Incorrect API key" = true)
    (h₂ : NoDotenv.collectErrors r₂.all_results ≠ [])
    (h₂k : strContains
        (NoDotenv.error_summary (NoDotenv.collectErrors r₂.all_results))
        "Incorrect API key" = false)
    (h₃ : NoDotenv.collectErrors r₃.all_results = []) :
    NoDotenv.terminalEvent now r₁ = NoDotenv.credErrorMsg now ∧
    (NoDotenv.terminalEvent now r₁).type = "error" ∧
    NoDotenv.terminalEvent now r₂ =
      ⟨"error",
       "💥 **ERREUR BROWSER-USE**\n\n" ++
         strSlice
           (NoDotenv.error_summary (NoDotenv.collectErrors r₂.all_results))
           500 ++ "...",
       now, "Browser-Use"⟩ ∧
    (NoDotenv.terminalEvent now r₂).type = "error" ∧
    NoDotenv.terminalEvent now r₃ =
      ⟨"agent",
       "🎉 Tâche terminée avec succès !\n\n📋 **Résultat:**\n" ++ r₃.text ++
         "\n\n🤖 Exécuté par Browser-Use", now, "Browser-Use"⟩ ∧
    (∃ pre post,
      (NoDotenv.terminalEvent now r₃).content = pre ++ r₃.text ++ post) := by
  refine ⟨?_, ?_, ?_, ?_, ?_, ?_⟩
  · simp [NoDotenv.terminalEvent, h₁, h₁k]
  · simp [NoDotenv.terminalEvent, h₁, h₁k, NoDotenv.credErrorMsg]
  · simp [NoDotenv.terminalEvent, h₂, h₂k]
  · simp [NoDotenv.terminalEvent, h₂, h₂k]
  · simp [NoDotenv.terminalEvent, h₃]
  · refine ⟨"🎉 Tâche terminée avec succès !\n\n📋 **Résultat:**\n",
      "\n\n🤖 Exécuté par Browser-Use", ?_⟩
    simp [NoDotenv.terminalEvent, h₃]

/-- C2 witness: a credential error in the first step is classified as the
credential event; a plain "boom" error gets the generic event; a result
whose steps carry only absent or empty error attributes is reported as
success. -/
theorem classification_amended_witness :
    (NoDotenv.collectErrors
        [(⟨some "Incorrect API key provided"⟩ : ActionResult)] ≠ [] ∧
      strContains
        (NoDotenv.error_summary (NoDotenv.collectErrors
          [(⟨some "Incorrect API key provided"⟩ : ActionResult)]))
        "Incorrect API key" = true ∧
      NoDotenv.collectErrors [(⟨some "boom"⟩ : ActionResult)] ≠ [] ∧
      strContains
        (NoDotenv.error_summary (NoDotenv.collectErrors
          [(⟨some "boom"⟩ : ActionResult)])) "Incorrect API key" = false ∧
      NoDotenv.collectErrors
        [(⟨none⟩ : ActionResult), (⟨some ""⟩ : ActionResult)] = []) ∧
    (NoDotenv.terminalEvent "12:00:00"
        ⟨[⟨some "Incorrect API key provided"⟩], "x"⟩ =
      NoDotenv.credErrorMsg "12:00:00" ∧
      (NoDotenv.terminalEvent "12:00:00"
        ⟨[⟨some "Incorrect API key provided"⟩], "x"⟩).type = "error" ∧
      NoDotenv.terminalEvent "12:00:00" ⟨[⟨some "boom"⟩], "y"⟩ =
        ⟨"error",
         "💥 **ERREUR BROWSER-USE**\n\n" ++
           strSlice
             (NoDotenv.error_summary (NoDotenv.collectErrors
               (⟨[⟨some "boom"⟩], "y"⟩ : AgentHistory).all_results)) 500 ++
           "...",
         "12:00:00", "Browser-Use"⟩ ∧
      (NoDotenv.terminalEvent "12:00:00" ⟨[⟨some "boom"⟩], "y"⟩).type =
        "error" ∧
      NoDotenv.terminalEvent "12:00:00" ⟨[⟨none⟩, ⟨some ""⟩], "z"⟩ =
        ⟨"agent",
         "🎉 Tâche terminée avec succès !\n\n📋 **Résultat:**\n" ++
           (⟨[⟨none⟩, ⟨some ""⟩], "z"⟩ : AgentHistory).text ++
           "\n\n🤖 Exécuté par Browser-Use", "12:00:00", "Browser-Use"⟩ ∧
      (∃ pre post,
        (NoDotenv.terminalEvent "12:00:00"
            ⟨[⟨none⟩, ⟨some ""⟩], "z"⟩).content =
          pre ++ (⟨[⟨none⟩, ⟨some ""⟩], "z"⟩ : AgentHistory).text ++ post)) :=
  ⟨⟨by decide, by decide, by decide, by decide, by decide⟩,
    classification_amended "12:00:00"
      ⟨[⟨some "Incorrect API key provided"⟩], "x"⟩
      ⟨[⟨some "boom"⟩], "y"⟩ ⟨[⟨none⟩, ⟨some ""⟩], "z"⟩
      (by decide) (by decide) (by decide) (by decide) (by decide)⟩

/-- The summary part of the generic failure event is at most 500
characters long. -/
theorem strSlice_length_le (s : String) (n : Nat) :
    (strSlice s n).length ≤ n := by
  have h : (strSlice s n).length = (s.data.take n).length := rfl
  rw [h]
  exact s.data.length_take_le n

/-- C10: the generic failure event is built from the first three collected
errors joined by newlines, with that summary truncated to at most 500
characters; the credential check is evaluated on the joined three-error
summary, so the terminal event depends only on the first three collected
errors (an error after the third cannot change it). -/
theorem generic_summary_structure (now : String) (r r' : AgentHistory)
    (h : NoDotenv.collectErrors r.all_results ≠ [])
    (h' : NoDotenv.collectErrors r'.all_results ≠ [])
    (h3 : (NoDotenv.collectErrors r'.all_results).take 3 =
      (NoDotenv.collectErrors r.all_results).take 3) :
    NoDotenv.terminalEvent now r =
      (if strContains
            (String.intercalate "\n"
              ((NoDotenv.collectErrors r.all_results).take 3))
            "Incorrect API key" = true
       then NoDotenv.credErrorMsg now
       else
        ⟨"error",
         "💥 **ERREUR BROWSER-USE**\n\n" ++
           strSlice
             (String.intercalate "\n"
               ((NoDotenv.collectErrors r.all_results).take 3)) 500 ++ "...",
         now, "Browser-Use"⟩) ∧
    (strSlice
        (String.intercalate "\n"
          ((NoDotenv.collectErrors r.all_results).take 3)) 500).length ≤
      500 ∧
    NoDotenv.terminalEvent now r' = NoDotenv.terminalEvent now r := by
  refine ⟨?_, strSlice_length_le _ 500, ?_⟩
  · by_cases hk : strContains
        (String.intercalate "\n"
          ((NoDotenv.collectErrors r.all_results).take 3))
        "Incorrect API key" = true
    · simp [NoDotenv.terminalEvent, NoDotenv.error_summary, h, hk]
    · simp only [Bool.not_eq_true] at hk
      simp [NoDotenv.terminalEvent, NoDotenv.error_summary, h, hk]
  · have e1 : NoDotenv.error_summary (NoDotenv.collectErrors r'.all_results) =
        NoDotenv.error_summary (NoDotenv.collectErrors r.all_results) := by
      unfold NoDotenv.error_summary
      rw [h3]
    simp only [NoDotenv.terminalEvent, if_neg h, if_neg h', e1]

/-- C10 witness: a fourth embedded error containing "Incorrect API key"
does not change the terminal event: the result with errors a, b, c,
"Incorrect API key" is classified exactly like the result with errors a,
b, c, generically, with the summary under the length bound. -/
theorem generic_summary_structure_witness :
    (NoDotenv.collectErrors
        ([⟨some "a"⟩, ⟨some "b"⟩, ⟨some "c"⟩, ⟨some "Incorrect API key"⟩] :
          List ActionResult) ≠ [] ∧
      NoDotenv.collectErrors
        ([⟨some "a"⟩, ⟨some "b"⟩, ⟨some "c"⟩] : List ActionResult) ≠ [] ∧
      (NoDotenv.collectErrors
        ([⟨some "a"⟩, ⟨some "b"⟩, ⟨some "c"⟩] : List ActionResult)).take 3 =
        (NoDotenv.collectErrors
          ([⟨some "a"⟩, ⟨some "b"⟩, ⟨some "c"⟩,
            ⟨some "Incorrect API key"⟩] : List ActionResult)).take 3) ∧
    (NoDotenv.terminalEvent "12:00:00"
        ⟨[⟨some "a"⟩, ⟨some "b"⟩, ⟨some "c"⟩,
          ⟨some "Incorrect API key"⟩], "u"⟩ =
      (if strContains
            (String.intercalate "\n"
              ((NoDotenv.collectErrors
                (⟨[⟨some "a"⟩, ⟨some "b"⟩, ⟨some "c"⟩,
                  ⟨some "Incorrect API key"⟩], "u"⟩ :
                    AgentHistory).all_results).take 3))
            "Incorrect API key" = true
       then NoDotenv.credErrorMsg "12:00:00"
       else
        ⟨"error",
         "💥 **ERREUR BROWSER-USE**\n\n" ++
           strSlice
             (String.intercalate "\n"
               ((NoDotenv.collectErrors
                 (⟨[⟨some "a"⟩, ⟨some "b"⟩, ⟨some "c"⟩,
                   ⟨some "Incorrect API key"⟩], "u"⟩ :
                     AgentHistory).all_results).take 3)) 500 ++ "...",
         "12:00:00", "Browser-Use"⟩) ∧
      (strSlice
          (String.intercalate "\n"
            ((NoDotenv.collectErrors
              (⟨[⟨some "a"⟩, ⟨some "b"⟩, ⟨some "c"⟩,
                ⟨some "Incorrect API key"⟩], "u"⟩ :
                  AgentHistory).all_results).take 3)) 500).length ≤ 500 ∧
      NoDotenv.terminalEvent "12:00:00"
          ⟨[⟨some "a"⟩, ⟨some "b"⟩, ⟨some "c"⟩], "v"⟩ =
        NoDotenv.terminalEvent "12:00:00"
          ⟨[⟨some "a"⟩, ⟨some "b"⟩, ⟨some "c"⟩,
            ⟨some "Incorrect API key"⟩], "u"⟩) :=
  ⟨⟨by decide, by decide, by decide⟩,
    generic_summary_structure "12:00:00"
      ⟨[⟨some "a"⟩, ⟨some "b"⟩, ⟨some "c"⟩, ⟨some "Incorrect API key"⟩], "u"⟩
      ⟨[⟨some "a"⟩, ⟨some "b"⟩, ⟨some "c"⟩], "v"⟩
      (by decide) (by decide) (by decide)⟩

/-- C3: every execution that successfully acquires the gate ends with the
gate free and the task cleared: in main_no_dotenv.py the handler performs
exactly one release_agent_lock call and finishes in the state with
agent_busy false, current_task none (and the lock free), for every
engine availability and engine outcome; in main.py the finally block of
process_task_websocket likewise restores agent_busy false and
current_task none; a subsequent /api/status then reports idle. -/
theorem gate_released_on_all_outcomes (avail : Bool) (now task : String)
    (outcome : EngineOutcome) (s s₁ : NoDotenv.ManagerState)
    (sm : MainPy.MainState)
    (hAcq : NoDotenv.acquire_agent_lock s = some (true, s₁))
    (hm : sm.agent_busy = false) :
    (∃ acts, NoDotenv.execute_browser_use_task avail now task outcome s =
        .done acts ⟨false, false, none, false⟩ ∧
      acts.countP isRelease = 1) ∧
    (∃ acts, MainPy.process_task_websocket now task outcome sm =
        .done acts ⟨false, none⟩) ∧
    get_status now false none = ⟨"idle", none, now⟩ := by
  refine ⟨?_, ?_, rfl⟩
  · unfold NoDotenv.execute_browser_use_task
    rw [hAcq]
    cases avail <;> cases outcome <;>
      exact ⟨_, rfl, by
        simp [List.countP_cons, List.countP_nil, isRelease]⟩
  · unfold MainPy.process_task_websocket
    rw [if_neg (by simp [hm])]
    cases outcome <;> exact ⟨_, rfl⟩

/-- C3 witness: a successful acquisition from the free state, followed by
an engine exception, still ends with the gate free, the task cleared, one
release performed, and /api/status reporting idle. -/
theorem gate_released_on_all_outcomes_witness :
    (NoDotenv.acquire_agent_lock ⟨false, false, none, false⟩ =
        some (true, ⟨true, true, none, false⟩) ∧
      (⟨false, none⟩ : MainPy.MainState).agent_busy = false) ∧
    ((∃ acts, NoDotenv.execute_browser_use_task true "12:00:00" "t"
          (.raised "boom") ⟨false, false, none, false⟩ =
        .done acts ⟨false, false, none, false⟩ ∧
      acts.countP isRelease = 1) ∧
     (∃ acts, MainPy.process_task_websocket "12:00:00" "t" (.raised "boom")
          ⟨false, none⟩ = .done acts ⟨false, none⟩) ∧
     get_status "12:00:00" false none = ⟨"idle", none, "12:00:00"⟩) :=
  ⟨⟨by decide, by decide⟩,
    gate_released_on_all_outcomes true "12:00:00" "t" (.raised "boom")
      ⟨false, false, none, false⟩ ⟨true, true, none, false⟩ ⟨false, none⟩
      (by decide) (by decide)⟩

/-- C4: when a task finds the gate held (the busy check in main.py, or
acquire_agent_lock reporting busy in main_no_dotenv.py), the handler
performs exactly one personal send of the "system" busy event to the
submitting websocket — never a broadcast — leaves the gate state exactly
as it was, and never reaches the engine. -/
theorem busy_rejection_personal (avail : Bool) (now task : String)
    (outcome : EngineOutcome) (s : NoDotenv.ManagerState)
    (sm : MainPy.MainState)
    (hL : s.lockHeld = false) (hB : s.agent_busy = true)
    (hm : sm.agent_busy = true) :
    NoDotenv.execute_browser_use_task avail now task outcome s =
      .done [.personalMsg (NoDotenv.busyMsg now)] s ∧
    (NoDotenv.busyMsg now).type = "system" ∧
    MainPy.process_task_websocket now task outcome sm =
      .done [.personalMsg (MainPy.busyMsg now)] sm ∧
    (MainPy.busyMsg now).type = "system" ∧
    Action.engineRun ∉ [Action.personalMsg (NoDotenv.busyMsg now)] ∧
    (∀ m : ChatMessage,
      Action.broadcastMsg m ∉ [Action.personalMsg (NoDotenv.busyMsg now)]) := by
  have hacq : NoDotenv.acquire_agent_lock s = some (false, s) := by
    simp [NoDotenv.acquire_agent_lock, hL, hB]
  refine ⟨?_, rfl, ?_, rfl, by simp, by intro m h; simp at h⟩
  · unfold NoDotenv.execute_browser_use_task
    rw [hacq]
  · unfold MainPy.process_task_websocket
    rw [if_pos (by simp [hm])]

/-- C4 witness: a submission finding agent_busy true gets exactly the
personal busy rejection with no state change and no engine run. -/
theorem busy_rejection_personal_witness :
    ((⟨false, true, some "t", false⟩ :
        NoDotenv.ManagerState).lockHeld = false ∧
      (⟨false, true, some "t", false⟩ :
        NoDotenv.ManagerState).agent_busy = true ∧
      (⟨true, some "t"⟩ : MainPy.MainState).agent_busy = true) ∧
    (NoDotenv.execute_browser_use_task true "12:00:00" "u" (.raised "x")
        ⟨false, true, some "t", false⟩ =
      .done [.personalMsg (NoDotenv.busyMsg "12:00:00")]
        ⟨false, true, some "t", false⟩ ∧
     (NoDotenv.busyMsg "12:00:00").type = "system" ∧
     MainPy.process_task_websocket "12:00:00" "u" (.raised "x")
        ⟨true, some "t"⟩ =
      .done [.personalMsg (MainPy.busyMsg "12:00:00")] ⟨true, some "t"⟩ ∧
     (MainPy.busyMsg "12:00:00").type = "system" ∧
     Action.engineRun ∉
        [Action.personalMsg (NoDotenv.busyMsg "12:00:00")] ∧
     (∀ m : ChatMessage,
        Action.broadcastMsg m ∉
          [Action.personalMsg (NoDotenv.busyMsg "12:00:00")])) :=
  ⟨⟨by decide, by decide, by decide⟩,
    busy_rejection_personal true "12:00:00" "u" (.raised "x")
      ⟨false, true, some "t", false⟩ ⟨true, some "t"⟩
      (by decide) (by decide) (by decide)⟩

/-- C7: a user_message empty after trimming produces no event and never
reaches the task handler (the result does not depend on the handler); a
voice_input is always echoed with a "user" event framing the voice text,
and reaches the handler exactly when its trimmed content is nonempty; a
nonempty user_message is echoed trimmed and handed to the handler with the
trimmed text. -/
theorem empty_input_ignored_router {σ : Type}
    (handler : String → σ → RouterOut σ) (now c₁ c₂ : String) (s : σ)
    (h₁ : pyStrip c₁ = "") (h₂ : pyStrip c₂ ≠ "") :
    websocket_chat_step handler now (.user_message c₁) s = .done [] s ∧
    websocket_chat_step handler now (.voice_input c₁) s =
      .done [.broadcastMsg (voiceEchoMsg now c₁)] s ∧
    (voiceEchoMsg now c₁).type = "user" ∧
    websocket_chat_step handler now (.user_message c₂) s =
      (handler (pyStrip c₂) s).consAct
        (.broadcastMsg (userEchoMsg now (pyStrip c₂))) ∧
    websocket_chat_step handler now (.voice_input c₂) s =
      (handler c₂ s).consAct (.broadcastMsg (voiceEchoMsg now c₂)) := by
  refine ⟨?_, ?_, rfl, ?_, ?_⟩ <;>
    simp [websocket_chat_step, h₁, h₂]

/-- C7 witness: an all-whitespace user_message is dropped, an
all-whitespace voice_input is only echoed, and a nonempty input reaches
the handler. -/
theorem empty_input_ignored_router_witness :
    (pyStrip "   " = "" ∧ pyStrip " go " ≠ "") ∧
    (websocket_chat_step trivialHandler "12:00:00"
        (.user_message "   ") 0 = .done [] 0 ∧
     websocket_chat_step trivialHandler "12:00:00"
        (.voice_input "   ") 0 =
      .done [.broadcastMsg (voiceEchoMsg "12:00:00" "   ")] 0 ∧
     (voiceEchoMsg "12:00:00" "   ").type = "user" ∧
     websocket_chat_step trivialHandler "12:00:00"
        (.user_message " go ") 0 =
      (trivialHandler (pyStrip " go ") 0).consAct
        (.broadcastMsg (userEchoMsg "12:00:00" (pyStrip " go "))) ∧
     websocket_chat_step trivialHandler "12:00:00"
        (.voice_input " go ") 0 =
      (trivialHandler " go " 0).consAct
        (.broadcastMsg (voiceEchoMsg "12:00:00" " go "))) :=
  ⟨⟨by decide, by decide⟩,
    empty_input_ignored_router trivialHandler "12:00:00" "   " " go " 0
      (by decide) (by decide)⟩

/-- C8: a ping is answered with a direct pong reply carrying the
timestamp, sent to the originating websocket only (the trace contains no
broadcast), and the manager state — whatever it is, gate free or held —
is returned unchanged. -/
theorem ping_pong_personal {σ : Type} (handler : String → σ → RouterOut σ)
    (now : String) (s : σ) :
    websocket_chat_step handler now .ping s = .done [.pongReply now] s ∧
    ∀ m : ChatMessage, Action.broadcastMsg m ∉ [Action.pongReply now] := by
  exact ⟨rfl, by intro m h; simp at h⟩

/-- Every terminal classification event is of a terminal kind ("agent"
success or "error"). -/
theorem isTerminal_terminalEvent (now : String) (r : AgentHistory) :
    isTerminal (NoDotenv.terminalEvent now r) = true := by
  unfold NoDotenv.terminalEvent
  by_cases h : NoDotenv.collectErrors r.all_results = []
  · simp [h, isTerminal]
  · by_cases hk : strContains
        (NoDotenv.error_summary (NoDotenv.collectErrors r.all_results))
        "Incorrect API key" = true
    · simp [h, hk, isTerminal, NoDotenv.credErrorMsg]
    · simp only [Bool.not_eq_true] at hk
      simp [h, hk, isTerminal]

/-- C5: an observer connected for the whole task receives exactly, in
production order: the user echo of the trimmed task, then the fixed
advisory sequence, then exactly one terminal event ("agent" success or
"error"); stated for process_task_websocket of main.py (start plus four
progress advisories) and for execute_browser_use_task of main_no_dotenv.py
with Browser-Use available (start, init, launch advisories), for both
engine outcomes. -/
theorem observer_event_order (now c : String) (outcome : EngineOutcome)
    (sm : MainPy.MainState) (s : NoDotenv.ManagerState)
    (hc : pyStrip c ≠ "") (hm : sm.agent_busy = false)
    (hL : s.lockHeld = false) (hB : s.agent_busy = false) :
    (∃ acts smF t,
      websocket_chat_step
          (fun task st => MainPy.process_task_websocket now task outcome st)
          now (.user_message c) sm = .done acts smF ∧
      broadcastsOf acts =
        userEchoMsg now (pyStrip c) :: MainPy.advisoryMsgs now ++ [t] ∧
      isTerminal t = true ∧
      (broadcastsOf acts).filter isTerminal = [t] ∧
      (MainPy.advisoryMsgs now).all (fun m => m.type == "system") = true ∧
      (userEchoMsg now (pyStrip c)).type = "user") ∧
    (∃ acts sF t,
      websocket_chat_step
          (fun task st =>
            NoDotenv.execute_browser_use_task true now task outcome st)
          now (.user_message c) s = .done acts sF ∧
      broadcastsOf acts =
        userEchoMsg now (pyStrip c) :: NoDotenv.advisoryMsgs now ++ [t] ∧
      isTerminal t = true ∧
      (broadcastsOf acts).filter isTerminal = [t] ∧
      (NoDotenv.advisoryMsgs now).all (fun m => m.type == "system") =
        true) := by
  cases outcome with
  | ok r =>
    constructor
    · have hstep : websocket_chat_step
          (fun task st =>
            MainPy.process_task_websocket now task (.ok r) st)
          now (.user_message c) sm =
          .done [.broadcastMsg (userEchoMsg now (pyStrip c)),
                 .broadcastMsg (MainPy.startMsg now),
                 .broadcastMsg (MainPy.progress1 now),
                 .broadcastMsg (MainPy.progress2 now),
                 .broadcastMsg (MainPy.progress3 now),
                 .broadcastMsg (MainPy.progress4 now), .engineRun,
                 .broadcastMsg (MainPy.successMsg now)] ⟨false, none⟩ := by
        simp [websocket_chat_step, hc, hm, MainPy.process_task_websocket,
          RouterOut.consAct]
      exact ⟨_, _, MainPy.successMsg now, hstep, rfl, rfl, rfl, rfl, rfl⟩
    · have hstep : websocket_chat_step
          (fun task st =>
            NoDotenv.execute_browser_use_task true now task (.ok r) st)
          now (.user_message c) s =
          .done [.broadcastMsg (userEchoMsg now (pyStrip c)),
                 .broadcastMsg (NoDotenv.startMsg now),
                 .broadcastMsg (NoDotenv.initMsg now),
                 .broadcastMsg (NoDotenv.launchMsg now), .engineRun,
                 .broadcastMsg (NoDotenv.terminalEvent now r),
                 .releaseLock] ⟨false, false, none, false⟩ := by
        simp [websocket_chat_step, hc, NoDotenv.execute_browser_use_task,
          NoDotenv.acquire_agent_lock, hL, hB, RouterOut.consAct,
          NoDotenv.release_agent_lock]
      refine ⟨_, _, NoDotenv.terminalEvent now r, hstep, rfl,
        isTerminal_terminalEvent now r, ?_, rfl⟩
      show List.filter isTerminal
          [userEchoMsg now (pyStrip c), NoDotenv.startMsg now,
           NoDotenv.initMsg now, NoDotenv.launchMsg now,
           NoDotenv.terminalEvent now r] = [NoDotenv.terminalEvent now r]
      simp [List.filter_cons, isTerminal_terminalEvent now r,
        show isTerminal (userEchoMsg now (pyStrip c)) = false from rfl,
        show isTerminal (NoDotenv.startMsg now) = false from rfl,
        show isTerminal (NoDotenv.initMsg now) = false from rfl,
        show isTerminal (NoDotenv.launchMsg now) = false from rfl]
  | raised e =>
    constructor
    · have hstep : websocket_chat_step
          (fun task st =>
            MainPy.process_task_websocket now task (.raised e) st)
          now (.user_message c) sm =
          .done [.broadcastMsg (userEchoMsg now (pyStrip c)),
                 .broadcastMsg (MainPy.startMsg now),
                 .broadcastMsg (MainPy.progress1 now),
                 .broadcastMsg (MainPy.progress2 now),
                 .broadcastMsg (MainPy.progress3 now),
                 .broadcastMsg (MainPy.progress4 now), .engineRun,
                 .broadcastMsg (MainPy.hardErrorMsg now e)]
            ⟨false, none⟩ := by
        simp [websocket_chat_step, hc, hm, MainPy.process_task_websocket,
          RouterOut.consAct]
      exact ⟨_, _, MainPy.hardErrorMsg now e, hstep, rfl, rfl, rfl, rfl,
        rfl⟩
    · have hstep : websocket_chat_step
          (fun task st =>
            NoDotenv.execute_browser_use_task true now task (.raised e) st)
          now (.user_message c) s =
          .done [.broadcastMsg (userEchoMsg now (pyStrip c)),
                 .broadcastMsg (NoDotenv.startMsg now),
                 .broadcastMsg (NoDotenv.initMsg now),
                 .broadcastMsg (NoDotenv.launchMsg now), .engineRun,
                 .broadcastMsg (NoDotenv.hardErrorMsg now e),
                 .releaseLock] ⟨false, false, none, false⟩ := by
        simp [websocket_chat_step, hc, NoDotenv.execute_browser_use_task,
          NoDotenv.acquire_agent_lock, hL, hB, RouterOut.consAct,
          NoDotenv.release_agent_lock]
      exact ⟨_, _, NoDotenv.hardErrorMsg now e, hstep, rfl, rfl, rfl, rfl⟩

/-- C5 witness: for the task " task " with the engine raising "boom", a
connected observer receives the echo, the advisories in order, then the
single terminal error event, in both backends. -/
theorem observer_event_order_witness :
    (pyStrip " task " ≠ "" ∧
      (⟨false, none⟩ : MainPy.MainState).agent_busy = false ∧
      (⟨false, false, none, false⟩ :
        NoDotenv.ManagerState).lockHeld = false ∧
      (⟨false, false, none, false⟩ :
        NoDotenv.ManagerState).agent_busy = false) ∧
    ((∃ acts smF t,
      websocket_chat_step
          (fun task st =>
            MainPy.process_task_websocket "12:00:00" task (.raised "boom") st)
          "12:00:00" (.user_message " task ") (⟨false, none⟩ :
            MainPy.MainState) = .done acts smF ∧
      broadcastsOf acts =
        userEchoMsg "12:00:00" (pyStrip " task ") ::
          MainPy.advisoryMsgs "12:00:00" ++ [t] ∧
      isTerminal t = true ∧
      (broadcastsOf acts).filter isTerminal = [t] ∧
      (MainPy.advisoryMsgs "12:00:00").all
        (fun m => m.type == "system") = true ∧
      (userEchoMsg "12:00:00" (pyStrip " task ")).type = "user") ∧
    (∃ acts sF t,
      websocket_chat_step
          (fun task st =>
            NoDotenv.execute_browser_use_task true "12:00:00" task
              (.raised "boom") st)
          "12:00:00" (.user_message " task ")
          (⟨false, false, none, false⟩ : NoDotenv.ManagerState) =
        .done acts sF ∧
      broadcastsOf acts =
        userEchoMsg "12:00:00" (pyStrip " task ") ::
          NoDotenv.advisoryMsgs "12:00:00" ++ [t] ∧
      isTerminal t = true ∧
      (broadcastsOf acts).filter isTerminal = [t] ∧
      (NoDotenv.advisoryMsgs "12:00:00").all
        (fun m => m.type == "system") = true)) :=
  ⟨⟨by decide, by decide, by decide, by decide⟩,
    observer_event_order "12:00:00" " task " (.raised "boom")
      ⟨false, none⟩ ⟨false, false, none, false⟩
      (by decide) (by decide) (by decide) (by decide)⟩

end Backend
